import Mathlib

/-!
Verification development for the open-meteo-analyzer repository.

The repository's non-trivial logic lives in two places:

* `parse_date_input` in `fetcher.py` (duplicated verbatim in
  `open_meteo_fetcher.py`): normalizes a partial date string (`YYYY`,
  `YYYY-MM`, or `YYYY-MM-DD`) to a full date string, clamping end dates
  to "yesterday".
* `visualize_weather_data` in `visualizer.py` and
  `visualization_openmeteo.py`: filters daily temperature rows by
  year/month (single value or range, with month wraparound), drops rows
  with missing mean temperature, and aggregates per-year means; plus the
  `__main__` argument validation of both scripts.

This file embeds those functions shallowly.  Dates are triples of
naturals with Gregorian calendar arithmetic (mirroring Python's
`datetime` / `relativedelta(days=1)`).  Temperatures are rationals
(the float values of the source, idealized to exact arithmetic).
Python's `int()` is modelled for sign-prefixed decimal strings
(underscore separators and non-ASCII digits are out of scope: every
input the claims quantify over is a plain ASCII digit string), and
`str.strip()` is modelled for the ASCII whitespace characters.
-/

/-! ## Calendar model (Python `datetime` / `relativedelta(days=1)`) -/

/-- Gregorian leap-year rule, as implemented by Python's `calendar`/`datetime`. -/
def isLeapYear (y : Nat) : Bool :=
  y % 4 == 0 && (y % 100 != 0 || y % 400 == 0)

/-- Number of days of month `m` (1..12) of year `y`. -/
def daysInMonth (y m : Nat) : Nat :=
  if m = 2 then (if isLeapYear y then 29 else 28)
  else if m = 4 ∨ m = 6 ∨ m = 9 ∨ m = 11 then 30
  else 31

/-- A calendar date.  Python's `datetime` restricts `year` to 1..9999;
the structure itself is unrestricted and `ValidDate` states the range. -/
structure Date where
  year : Nat
  month : Nat
  day : Nat
deriving DecidableEq

/-- The date one day earlier: `d - relativedelta(days=1)`. -/
def predDate (d : Date) : Date :=
  if d.day > 1 then ⟨d.year, d.month, d.day - 1⟩
  else if d.month > 1 then ⟨d.year, d.month - 1, daysInMonth d.year (d.month - 1)⟩
  else ⟨d.year - 1, 12, 31⟩

/-- Strict comparison of dates (Python compares `datetime` objects
lexicographically; the code always compares a midnight timestamp with
`yesterday` carrying a time of day, which coincides with date-level
comparison as used here). -/
def dateLt (a b : Date) : Bool :=
  decide (a.year < b.year) ||
    (a.year == b.year &&
      (decide (a.month < b.month) ||
        (a.month == b.month && decide (a.day < b.day))))

/-- The date is representable as a Python `datetime`. -/
def ValidDate (d : Date) : Prop :=
  1 ≤ d.year ∧ d.year ≤ 9999 ∧ 1 ≤ d.month ∧ d.month ≤ 12 ∧
    1 ≤ d.day ∧ d.day ≤ daysInMonth d.year d.month

instance (d : Date) : Decidable (ValidDate d) := by
  unfold ValidDate; infer_instance

/-! ## Decimal strings: Python `int()`, f-string formatting, `strptime` -/

/-- The decimal digit character for `d` (0..9). -/
def digitChar (d : Nat) : Char :=
  if d = 0 then '0' else if d = 1 then '1' else if d = 2 then '2'
  else if d = 3 then '3' else if d = 4 then '4' else if d = 5 then '5'
  else if d = 6 then '6' else if d = 7 then '7' else if d = 8 then '8'
  else '9'

/-- ASCII decimal digit test. -/
def isDigitChar (c : Char) : Bool :=
  decide (48 ≤ c.toNat) && decide (c.toNat ≤ 57)

/-- ASCII whitespace, as stripped by Python's `str.strip()` (the
non-ASCII whitespace Python also strips never occurs in the inputs the
claims quantify over). -/
def isSpaceChar (c : Char) : Bool :=
  c == ' ' || c == '\t' || c == '\n' || c == '\r' || c == '\x0b' || c == '\x0c'

/-- Value of a digit string (most significant first). -/
def charsVal (l : List Char) : Nat :=
  l.foldl (fun a c => 10 * a + (c.toNat - 48)) 0

/-- Value of a nonempty all-digit character list, else `none`. -/
def decDigits? (l : List Char) : Option Nat :=
  if l ≠ [] ∧ l.all isDigitChar = true then some (charsVal l) else none

/-- Python `int()` on an already-stripped string: optional sign followed
by at least one decimal digit. -/
def pyInt? (l : List Char) : Option Int :=
  match l with
  | [] => none
  | c :: rest =>
    if c = '-' then (decDigits? rest).map (fun n => -(n : Int))
    else if c = '+' then (decDigits? rest).map (fun n => (n : Int))
    else (decDigits? (c :: rest)).map (fun n => (n : Int))

/-- Digits of `n`, most significant first, prepended to `acc`.  The fuel
argument makes the recursion structural; `natToDec` supplies `n + 1`
fuel, always enough. -/
def natToDecCore : Nat → Nat → List Char → List Char
  | 0, _, acc => acc
  | fuel + 1, n, acc =>
    if n < 10 then digitChar n :: acc
    else natToDecCore fuel (n / 10) (digitChar (n % 10) :: acc)

/-- Decimal representation of a natural, as produced by Python's `str`
/ f-string formatting of a nonnegative `int` (no padding). -/
def natToDec (n : Nat) : String :=
  ⟨natToDecCore (n + 1) n []⟩

/-- Decimal representation of an integer, as produced by Python's
f-string formatting of an `int`. -/
def intToDec (i : Int) : String :=
  if i < 0 then "-" ++ natToDec i.natAbs else natToDec i.natAbs

/-- Python's `f"{n:02d}"` for a nonnegative value. -/
def pad2 (n : Nat) : String :=
  if n < 10 then "0" ++ natToDec n else natToDec n

/-- A year printed as exactly four digits (zero padded).  Used to build
the `YYYY-MM` claim inputs; years 1..9999. -/
def pad4 (n : Nat) : String :=
  if n < 10 then "000" ++ natToDec n
  else if n < 100 then "00" ++ natToDec n
  else if n < 1000 then "0" ++ natToDec n
  else natToDec n

/-- `str.strip()` on the underlying character list. -/
def pyStripL (l : List Char) : List Char :=
  ((l.dropWhile isSpaceChar).reverse.dropWhile isSpaceChar).reverse

/-- Python `str.strip()`. -/
def pyStrip (s : String) : String :=
  ⟨pyStripL s.data⟩

/-- `str.split("-")` on a character list: the dash-separated fields
(empty fields preserved, as in Python). -/
def fields : List Char → List (List Char)
  | [] => [[]]
  | c :: rest =>
    if c = '-' then [] :: fields rest
    else
      match fields rest with
      | f :: fs => (c :: f) :: fs
      | [] => [[c]]

/-- `datetime.strftime("%Y-%m-%d")`: month and day zero-padded to two
digits, year unpadded (glibc behaviour; identical for years ≥ 1000,
which covers every reachable "yesterday"). -/
def fmtDate (d : Date) : String :=
  natToDec d.year ++ "-" ++ pad2 d.month ++ "-" ++ pad2 d.day

/-- Decoder for `"%Y-%m-%d"` date strings: a dash-separated year (one to
four digits), month and day (one or two digits each), spanning the whole
string, whose components form a representable date.  CPython's
`strptime` is stricter — `%Y` matches exactly four digits — but inside
the 10-character input branch the dash positions force a four-digit year
part, so there this coincides with `strptime`; the extra leniency only
lets it also decode the result strings of the normalizer, whose year is
formatted unpadded.  (A four-digit year part is at most 9999, so no
explicit upper year check is needed.) -/
def strptimeFlex? (s : String) : Option Date :=
  match fields s.data with
  | [ys, ms, ds] =>
    if ys ≠ [] ∧ ys.length ≤ 4 ∧ ys.all isDigitChar = true ∧
        ms ≠ [] ∧ ms.length ≤ 2 ∧ ms.all isDigitChar = true ∧
        ds ≠ [] ∧ ds.length ≤ 2 ∧ ds.all isDigitChar = true then
      let y := charsVal ys
      let m := charsVal ms
      let d := charsVal ds
      if 1 ≤ y ∧ 1 ≤ m ∧ m ≤ 12 ∧ 1 ≤ d ∧ d ≤ daysInMonth y m then
        some ⟨y, m, d⟩
      else none
    else none
  | _ => none

/-! ## `parse_date_input` (`src/fetcher.py`, lines 37-107) -/

namespace Fetcher

/-- `parse_date_input(date_str, is_start)` from `src/fetcher.py`.

`now` is the call time (`datetime.now()`); the code works with
`yesterday = now - relativedelta(days=1)`.  Returns the normalized
`YYYY-MM-DD` string or the `ValueError` message raised.  The one
non-`ValueError` abort of the source — subtracting a day from
`datetime(1, 1, 1)` raises an uncaught `OverflowError`, reachable only
for input `0000-12` in end mode — is modelled as the error string
`"date value out of range"`. -/
def parse_date_input (date_str : String) ( is_start : Bool) (now : Date) :
    Except String String :=
  let t := pyStrip date_str
  let yesterday := predDate now
  if t.length = 4 then
    match pyInt? t.data with
    | none => .error "Invalid year format. Please use YYYY."
    | some year =>
      if is_start then .ok (intToDec year ++ "-01-01")
      else
        -- strptime of the built string "{year}-12-31": CPython's `%Y`
        -- matches exactly four digits, so the unpadded year re-parses
        -- only for 1000..9999; the failure is caught by the same
        -- `except ValueError`.
        if 1000 ≤ year ∧ year ≤ 9999 then
          let d : Date := ⟨year.toNat, 12, 31⟩
          if dateLt yesterday d then .ok (fmtDate yesterday)
          else .ok (intToDec year ++ "-12-31")
        else .error "Invalid year format. Please use YYYY."
  else if t.length = 7 ∧ t.data.get? 4 = some '-' then
    match fields t.data with
    | [ys, ms] =>
      match pyInt? ys, pyInt? ms with
      | some year, some month =>
        if month < 1 ∨ month > 12 then
          -- the `raise ValueError("Month must be between 1 and 12.")`
          -- is swallowed by the enclosing `except ValueError`
          .error "Invalid year-month format. Please use YYYY-MM."
        else if is_start then
          .ok (intToDec year ++ "-" ++ pad2 month.toNat ++ "-01")
        else if month = 12 then
          -- next_month_date = datetime(year + 1, 1, 1)
          if 1 ≤ year + 1 ∧ year + 1 ≤ 9999 then
            if year = 0 then .error "date value out of range"
            -- the strptime re-parse of the unpadded f-string needs an
            -- exactly-four-digit year (`%Y`), else ValueError
            else if 1000 ≤ year then
              let ld := (predDate ⟨(year + 1).toNat, 1, 1⟩).day
              let d : Date := ⟨year.toNat, 12, ld⟩
              if dateLt yesterday d then .ok (fmtDate yesterday)
              else .ok (intToDec year ++ "-" ++ pad2 12 ++ "-" ++ pad2 ld)
            else .error "Invalid year-month format. Please use YYYY-MM."
          else .error "Invalid year-month format. Please use YYYY-MM."
        else
          -- next_month_date = datetime(year, month + 1, 1)
          if 1 ≤ year ∧ year ≤ 9999 then
            -- strptime re-parse: `%Y` needs exactly four digits
            if 1000 ≤ year then
              let ld := (predDate ⟨year.toNat, month.toNat + 1, 1⟩).day
              let d : Date := ⟨year.toNat, month.toNat, ld⟩
              if dateLt yesterday d then .ok (fmtDate yesterday)
              else .ok (intToDec year ++ "-" ++ pad2 month.toNat ++ "-" ++ pad2 ld)
            else .error "Invalid year-month format. Please use YYYY-MM."
          else .error "Invalid year-month format. Please use YYYY-MM."
      | _, _ => .error "Invalid year-month format. Please use YYYY-MM."
    | _ => .error "Invalid year-month format. Please use YYYY-MM."
  else if t.length = 10 ∧ t.data.get? 4 = some '-' ∧ t.data.get? 7 = some '-' then
    match strptimeFlex? t with
    | some d =>
      if !is_start && dateLt yesterday d then .ok (fmtDate yesterday)
      else .ok t
    | none => .error "Invalid date format. Please use YYYY-MM-DD."
  else .error "Invalid date format. Please use YYYY, YYYY-MM, or YYYY-MM-DD."

end Fetcher

/-! ## `parse_date_input` (`src/open_meteo_fetcher.py`, lines 36-106) -/

namespace OpenMeteoFetcher

/-- `parse_date_input(date_str, is_start)` from
`src/open_meteo_fetcher.py`, transcribed from that file (its text is a
verbatim copy of the one in `fetcher.py`); same modelling conventions as
`Fetcher.parse_date_input`. -/
def parse_date_input (date_str : String) ( is_start : Bool) (now : Date) :
    Except String String :=
  let t := pyStrip date_str
  let yesterday := predDate now
  if t.length = 4 then
    match pyInt? t.data with
    | none => .error "Invalid year format. Please use YYYY."
    | some year =>
      if is_start then .ok (intToDec year ++ "-01-01")
      else
        if 1000 ≤ year ∧ year ≤ 9999 then
          let d : Date := ⟨year.toNat, 12, 31⟩
          if dateLt yesterday d then .ok (fmtDate yesterday)
          else .ok (intToDec year ++ "-12-31")
        else .error "Invalid year format. Please use YYYY."
  else if t.length = 7 ∧ t.data.get? 4 = some '-' then
    match fields t.data with
    | [ys, ms] =>
      match pyInt? ys, pyInt? ms with
      | some year, some month =>
        if month < 1 ∨ month > 12 then
          .error "Invalid year-month format. Please use YYYY-MM."
        else if is_start then
          .ok (intToDec year ++ "-" ++ pad2 month.toNat ++ "-01")
        else if month = 12 then
          if 1 ≤ year + 1 ∧ year + 1 ≤ 9999 then
            if year = 0 then .error "date value out of range"
            else if 1000 ≤ year then
              let ld := (predDate ⟨(year + 1).toNat, 1, 1⟩).day
              let d : Date := ⟨year.toNat, 12, ld⟩
              if dateLt yesterday d then .ok (fmtDate yesterday)
              else .ok (intToDec year ++ "-" ++ pad2 12 ++ "-" ++ pad2 ld)
            else .error "Invalid year-month format. Please use YYYY-MM."
          else .error "Invalid year-month format. Please use YYYY-MM."
        else
          if 1 ≤ year ∧ year ≤ 9999 then
            if 1000 ≤ year then
              let ld := (predDate ⟨year.toNat, month.toNat + 1, 1⟩).day
              let d : Date := ⟨year.toNat, month.toNat, ld⟩
              if dateLt yesterday d then .ok (fmtDate yesterday)
              else .ok (intToDec year ++ "-" ++ pad2 month.toNat ++ "-" ++ pad2 ld)
            else .error "Invalid year-month format. Please use YYYY-MM."
          else .error "Invalid year-month format. Please use YYYY-MM."
      | _, _ => .error "Invalid year-month format. Please use YYYY-MM."
    | _ => .error "Invalid year-month format. Please use YYYY-MM."
  else if t.length = 10 ∧ t.data.get? 4 = some '-' ∧ t.data.get? 7 = some '-' then
    match strptimeFlex? t with
    | some d =>
      if !is_start && dateLt yesterday d then .ok (fmtDate yesterday)
      else .ok t
    | none => .error "Invalid date format. Please use YYYY-MM-DD."
  else .error "Invalid date format. Please use YYYY, YYYY-MM, or YYYY-MM-DD."

end OpenMeteoFetcher

/-! ## Daily rows and yearly aggregation (shared by both visualizers) -/

/-- One row of the DataFrame built from the payload's `daily` arrays:
the parsed date plus the three temperature columns (a `none` models a
JSON `null` / pandas `NaN`). -/
structure Row where
  date : Date
  temp_min : Option ℚ
  temp_max : Option ℚ
  temp_mean : Option ℚ
deriving DecidableEq

/-- `df["year"]`: the year column derived from the date. -/
def yearOf (r : Row) : Int := (r.date.year : Int)

/-- `df["month"]`: the month column derived from the date. -/
def monthOf (r : Row) : Int := (r.date.month : Int)

/-- One row of `yearly_stats`: the per-year means of the three columns. -/
structure YearAgg where
  year : Int
  temp_mean : ℚ
  temp_min : ℚ
  temp_max : ℚ
deriving DecidableEq

/-- Arithmetic mean of a list of rationals (pandas returns `NaN` for an
empty list; the junk value `0/0 = 0` is never reached by the theorems). -/
def meanQ (l : List ℚ) : ℚ := l.sum / (l.length : ℚ)

/-- The distinct years of the rows in ascending order, as produced by
`groupby("year")` (which sorts its keys). -/
def yearsOf (rows : List Row) : List Int :=
  ((rows.map yearOf).dedup).insertionSort (· ≤ ·)

/-- The rows of a given year. -/
def rowsOfYear (y : Int) (rows : List Row) : List Row :=
  rows.filter (fun r => yearOf r == y)

/-- `df_clean.groupby("year").agg({... "mean"}).reset_index()`: one
aggregate per distinct year; pandas' `mean` skips missing values
(`skipna=True`), hence the `filterMap`. -/
def yearlyStats (rows : List Row) : List YearAgg :=
  (yearsOf rows).map (fun y =>
    let g := rowsOfYear y rows
    { year := y
      temp_mean := meanQ (g.filterMap (fun r => r.temp_mean))
      temp_min := meanQ (g.filterMap (fun r => r.temp_min))
      temp_max := meanQ (g.filterMap (fun r => r.temp_max)) })

/-- Manual averaging, following the spec's words: for each remaining
year, the plain arithmetic mean of each temperature column over that
year's remaining rows (meaningful when the values are present; a missing
value is read as 0). -/
def manualYearlyStats (rows : List Row) : List YearAgg :=
  (yearsOf rows).map (fun y =>
    let g := rowsOfYear y rows
    { year := y
      temp_mean := meanQ (g.map (fun r => r.temp_mean.getD 0))
      temp_min := meanQ (g.map (fun r => r.temp_min.getD 0))
      temp_max := meanQ (g.map (fun r => r.temp_max.getD 0)) })

/-- Outcome of a `visualize_weather_data` run, restricted to its
filter/aggregate core: `noData` is the early return printing
`"❌ No data available: start year ... is current year or later"`
(only in `visualizer.py`), `noUsable` the return printing
`"⚠️ No usable temperature data found."`, and `stats` carries
`yearly_stats`, from which the chart is drawn. -/
inductive VizResult where
  | noData
  | noUsable
  | stats (l : List YearAgg)
deriving DecidableEq

/-- The yearly aggregates an outcome produces (none for the two
no-data outcomes). -/
def aggsOf : VizResult → List YearAgg
  | .stats l => l
  | _ => []

/-- The month-range filter shared by both visualizer variants
(`visualizer.py` lines 130-141, `visualization_openmeteo.py` lines
89-100): a plain inclusive range when `start <= end`, wraparound across
the year boundary otherwise. -/
def monthRangeFilter (sm em : Int) (l : List Row) : List Row :=
  if sm ≤ em then
    l.filter (fun r => decide (sm ≤ monthOf r) && decide (monthOf r ≤ em))
  else
    l.filter (fun r => decide (monthOf r ≥ sm) || decide (monthOf r ≤ em))

/-! ## `visualize_weather_data` (`src/visualizer.py`, lines 79-164) -/

namespace Visualizer

/-- The year-filter stage (`visualizer.py` lines 82-103).  `none` is the
early `"No data available"` return (year-range start not before the
current year); otherwise the filtered rows.  A requested year or range
end at/after the current year is clamped to `current_year - 1`. -/
def yearStep (rows : List Row) (year : Option Int)
    (year_range : Option (Int × Int)) (cy : Int) : Option (List Row) :=
  match year, year_range with
  | some y, _ =>
    let y' := if y ≥ cy then min y (cy - 1) else y
    some (rows.filter (fun r => yearOf r == y'))
  | none, some (sy, ey) =>
    let ey' := if ey ≥ cy then min ey (cy - 1) else ey
    if sy ≥ cy then none
    else some (rows.filter (fun r => decide (sy ≤ yearOf r) && decide (yearOf r ≤ ey')))
  | none, none => some (rows.filter (fun r => decide (yearOf r < cy)))

/-- The rows the year-filter predicates keep, with the early-return
branch read as its (always empty) filter; used to state when the
combined filters leave zero rows. -/
def yearStepList (rows : List Row) (year : Option Int)
    (year_range : Option (Int × Int)) (cy : Int) : List Row :=
  match year, year_range with
  | some y, _ =>
    rows.filter (fun r => yearOf r == (if y ≥ cy then min y (cy - 1) else y))
  | none, some (sy, ey) =>
    rows.filter (fun r =>
      decide (sy ≤ yearOf r) &&
        decide (yearOf r ≤ (if ey ≥ cy then min ey (cy - 1) else ey)))
  | none, none => rows.filter (fun r => decide (yearOf r < cy))

/-- "Exclude current and future months for the current year", applied by
every branch of the month stage of `visualizer.py`. -/
def exclCurrent (l : List Row) (cy cm : Int) : List Row :=
  l.filter (fun r => !(yearOf r == cy && decide (monthOf r ≥ cm)))

/-- The month-filter stage (`visualizer.py` lines 105-150). -/
def monthStep (l : List Row) (month : Option Int)
    (month_range : Option (Int × Int)) (cy cm : Int) : List Row :=
  match month, month_range with
  | some m, _ => (exclCurrent l cy cm).filter (fun r => monthOf r == m)
  | none, some (sm, em) => monthRangeFilter sm em (exclCurrent l cy cm)
  | none, none => exclCurrent l cy cm

/-- `df_clean = df_filtered.dropna(subset=["temp_mean"])`. -/
def cleanStep (l : List Row) : List Row :=
  l.filter (fun r => r.temp_mean.isSome)

/-- The filter/aggregate core of `visualize_weather_data` in
`src/visualizer.py` (lines 79-164): the file loading before it and the
chart rendering after it are straight library calls.  `current` is
`datetime.now()`. -/
def visualize_weather_data (rows : List Row) (year : Option Int)
    (year_range : Option (Int × Int)) (month : Option Int)
    (month_range : Option (Int × Int)) (current : Date) : VizResult :=
  match yearStep rows year year_range (current.year : Int) with
  | none => .noData
  | some l1 =>
    let clean := cleanStep
      (monthStep l1 month month_range (current.year : Int) (current.month : Int))
    if clean.isEmpty then .noUsable else .stats (yearlyStats clean)

/-- The rows remaining after the filters and the missing-mean drop
(reading the early-return branch as its empty filter result). -/
def cleanRows (rows : List Row) (year : Option Int)
    (year_range : Option (Int × Int)) (month : Option Int)
    (month_range : Option (Int × Int)) (current : Date) : List Row :=
  cleanStep
    (monthStep (yearStepList rows year year_range (current.year : Int))
      month month_range (current.year : Int) (current.month : Int))

end Visualizer

/-! ## `visualize_weather_data` (`src/visualization_openmeteo.py`, lines 64-115) -/

namespace VisualizationOpenmeteo

/-- The year-filter stage (`visualization_openmeteo.py` lines 67-76):
no clamping against the current year and no early return. -/
def yearStep (rows : List Row) (year : Option Int)
    (year_range : Option (Int × Int)) : List Row :=
  match year, year_range with
  | some y, _ => rows.filter (fun r => yearOf r == y)
  | none, some (sy, ey) =>
    rows.filter (fun r => decide (sy ≤ yearOf r) && decide (yearOf r ≤ ey))
  | none, none => rows

/-- The month-filter stage (`visualization_openmeteo.py` lines 78-101):
no current-period exclusion. -/
def monthStep (l : List Row) (month : Option Int)
    (month_range : Option (Int × Int)) : List Row :=
  match month, month_range with
  | some m, _ => l.filter (fun r => monthOf r == m)
  | none, some (sm, em) => monthRangeFilter sm em l
  | none, none => l

/-- The filter/aggregate core of `visualize_weather_data` in
`src/visualization_openmeteo.py` (lines 64-115); this variant never
consults the current date. -/
def visualize_weather_data (rows : List Row) (year : Option Int)
    (year_range : Option (Int × Int)) (month : Option Int)
    (month_range : Option (Int × Int)) : VizResult :=
  let clean := Visualizer.cleanStep (monthStep (yearStep rows year year_range) month month_range)
  if clean.isEmpty then .noUsable else .stats (yearlyStats clean)

/-- The rows remaining after the filters and the missing-mean drop. -/
def cleanRows (rows : List Row) (year : Option Int)
    (year_range : Option (Int × Int)) (month : Option Int)
    (month_range : Option (Int × Int)) : List Row :=
  Visualizer.cleanStep (monthStep (yearStep rows year year_range) month month_range)

end VisualizationOpenmeteo

/-! ## `__main__` argument validation (both visualizer scripts) -/

/-- Python truthiness of an optional integer argument: `args.year and
args.year_range` tests the value, so `0` counts as absent. -/
def truthyInt : Option Int → Bool
  | none => false
  | some n => n != 0

/-- Python truthiness of an optional two-integer `nargs=2` argument:
the parsed list has two elements, so any supplied range is truthy. -/
def truthyPair : Option (Int × Int) → Bool
  | none => false
  | some _ => true

/-- `not (1 <= start_month <= 12 and 1 <= end_month <= 12)`. -/
def mrViolation : Option (Int × Int) → Bool
  | some (s, e) =>
    !(decide (1 ≤ s) && decide (s ≤ 12) && decide (1 ≤ e) && decide (e ≤ 12))
  | none => false

/-- `start_year > end_year`. -/
def yrViolation : Option (Int × Int) → Bool
  | some (s, e) => decide (s > e)
  | none => false

/-- The argument validation of the `__main__` block, identical in
`src/visualizer.py` (lines 431-449) and `src/visualization_openmeteo.py`
(lines 242-260); it runs before any data is loaded.  `some 1` means the
process exits with code 1; `none` means validation passes and
`visualize_weather_data` is called. -/
def validateArgs (year : Option Int) (year_range : Option (Int × Int))
    (month : Option Int) (month_range : Option (Int × Int)) : Option Nat :=
  if truthyInt year && truthyPair year_range then some 1
  else if truthyInt month && truthyPair month_range then some 1
  else if truthyPair month_range && mrViolation month_range then some 1
  else if truthyPair year_range && yrViolation year_range then some 1
  else none

/-! ## Lemmas about the decimal-string helpers -/

theorem natToDecCore_succ (fuel n : Nat) (acc : List Char) (h : 0 < fuel) :
    natToDecCore fuel n acc =
      if n < 10 then digitChar n :: acc
      else natToDecCore (fuel - 1) (n / 10) (digitChar (n % 10) :: acc) := by
  cases fuel with
  | zero => omega
  | succ f => rfl

theorem digitChar_spec (d : Nat) (h : d < 10) :
    isDigitChar (digitChar d) = true ∧ (digitChar d).toNat = 48 + d := by
  interval_cases d <;> exact ⟨rfl, rfl⟩

theorem digit_toNat_bounds {c : Char} (h : isDigitChar c = true) :
    48 ≤ c.toNat ∧ c.toNat ≤ 57 := by
  simpa [isDigitChar] using h

theorem digit_not_space {c : Char} (h : isDigitChar c = true) :
    isSpaceChar c = false := by
  have hb := digit_toNat_bounds h
  cases hs : isSpaceChar c
  · rfl
  · exfalso
    simp only [isSpaceChar, Bool.or_eq_true, beq_iff_eq] at hs
    rcases hs with ((((hc | hc) | hc) | hc) | hc) | hc <;> subst hc <;>
      revert hb <;> decide

theorem digit_ne_dash {c : Char} (h : isDigitChar c = true) : c ≠ '-' := by
  intro hc; subst hc; revert h; decide

theorem digit_ne_plus {c : Char} (h : isDigitChar c = true) : c ≠ '+' := by
  intro hc; subst hc; revert h; decide

theorem natToDec_data1 (n : Nat) (h : n < 10) :
    (natToDec n).data = [digitChar n] := by
  show natToDecCore (n + 1) n [] = _
  rw [natToDecCore_succ _ _ _ (by omega), if_pos h]

theorem natToDec_data2 (n : Nat) (h1 : 10 ≤ n) (h2 : n ≤ 99) :
    (natToDec n).data = [digitChar (n / 10), digitChar (n % 10)] := by
  show natToDecCore (n + 1) n [] = _
  rw [natToDecCore_succ _ _ _ (by omega), if_neg (by omega)]
  simp only [Nat.add_sub_cancel]
  rw [natToDecCore_succ _ _ _ (by omega), if_pos (by omega)]

theorem natToDec_data3 (n : Nat) (h1 : 100 ≤ n) (h2 : n ≤ 999) :
    (natToDec n).data =
      [digitChar (n / 100), digitChar (n / 10 % 10), digitChar (n % 10)] := by
  show natToDecCore (n + 1) n [] = _
  rw [natToDecCore_succ _ _ _ (by omega), if_neg (by omega)]
  simp only [Nat.add_sub_cancel]
  rw [natToDecCore_succ _ _ _ (by omega), if_neg (by omega)]
  rw [natToDecCore_succ _ _ _ (by omega), if_pos (by omega)]
  have e : n / 10 / 10 = n / 100 := by omega
  rw [e]

theorem natToDec_data4 (n : Nat) (h1 : 1000 ≤ n) (h2 : n ≤ 9999) :
    (natToDec n).data =
      [digitChar (n / 1000), digitChar (n / 100 % 10),
        digitChar (n / 10 % 10), digitChar (n % 10)] := by
  show natToDecCore (n + 1) n [] = _
  rw [natToDecCore_succ _ _ _ (by omega), if_neg (by omega)]
  simp only [Nat.add_sub_cancel]
  rw [natToDecCore_succ _ _ _ (by omega), if_neg (by omega)]
  rw [natToDecCore_succ _ _ _ (by omega), if_neg (by omega)]
  rw [natToDecCore_succ _ _ _ (by omega), if_pos (by omega)]
  have e1 : n / 10 / 10 = n / 100 := by omega
  have e2 : n / 100 / 10 = n / 1000 := by omega
  rw [e1, e2]

theorem natToDec_spec (n : Nat) (h : n ≤ 9999) :
    (natToDec n).data.all isDigitChar = true ∧
      charsVal (natToDec n).data = n ∧
      1 ≤ (natToDec n).data.length ∧ (natToDec n).data.length ≤ 4 := by
  by_cases c1 : n < 10
  · rw [natToDec_data1 n c1]
    obtain ⟨hd, ht⟩ := digitChar_spec n c1
    refine ⟨by simp [hd], ?_, by simp, by simp⟩
    simp [charsVal, ht]
  · by_cases c2 : n ≤ 99
    · rw [natToDec_data2 n (by omega) c2]
      obtain ⟨hd1, ht1⟩ := digitChar_spec (n / 10) (by omega)
      obtain ⟨hd2, ht2⟩ := digitChar_spec (n % 10) (by omega)
      refine ⟨by simp [hd1, hd2], ?_, by simp, by simp⟩
      simp [charsVal, ht1, ht2]; omega
    · by_cases c3 : n ≤ 999
      · rw [natToDec_data3 n (by omega) c3]
        obtain ⟨hd1, ht1⟩ := digitChar_spec (n / 100) (by omega)
        obtain ⟨hd2, ht2⟩ := digitChar_spec (n / 10 % 10) (by omega)
        obtain ⟨hd3, ht3⟩ := digitChar_spec (n % 10) (by omega)
        refine ⟨by simp [hd1, hd2, hd3], ?_, by simp, by simp⟩
        simp [charsVal, ht1, ht2, ht3]; omega
      · rw [natToDec_data4 n (by omega) h]
        obtain ⟨hd1, ht1⟩ := digitChar_spec (n / 1000) (by omega)
        obtain ⟨hd2, ht2⟩ := digitChar_spec (n / 100 % 10) (by omega)
        obtain ⟨hd3, ht3⟩ := digitChar_spec (n / 10 % 10) (by omega)
        obtain ⟨hd4, ht4⟩ := digitChar_spec (n % 10) (by omega)
        refine ⟨by simp [hd1, hd2, hd3, hd4], ?_, by simp, by simp⟩
        simp [charsVal, ht1, ht2, ht3, ht4]; omega

theorem pad2_spec (n : Nat) (h : n ≤ 99) :
    (pad2 n).data.all isDigitChar = true ∧
      charsVal (pad2 n).data = n ∧ (pad2 n).data.length = 2 := by
  by_cases h10 : n < 10
  · have hdata : (pad2 n).data = '0' :: (natToDec n).data := by
      rw [pad2, if_pos h10]; rfl
    rw [hdata, natToDec_data1 n h10]
    obtain ⟨hd, ht⟩ := digitChar_spec n h10
    refine ⟨by simp [hd]; decide, ?_, by simp⟩
    simp [charsVal, ht]
  · rw [pad2, if_neg h10, natToDec_data2 n (by omega) h]
    obtain ⟨hd1, ht1⟩ := digitChar_spec (n / 10) (by omega)
    obtain ⟨hd2, ht2⟩ := digitChar_spec (n % 10) (by omega)
    refine ⟨by simp [hd1, hd2], ?_, by simp⟩
    simp [charsVal, ht1, ht2]; omega

theorem dropWhile_eq_self_of_all {p : Char → Bool} {l : List Char}
    (h : ∀ c ∈ l, p c = false) : l.dropWhile p = l := by
  cases l with
  | nil => rfl
  | cons a t => simp [List.dropWhile_cons, h a (by simp)]

theorem pyStrip_eq_self {s : String} (h : ∀ c ∈ s.data, isSpaceChar c = false) :
    pyStrip s = s := by
  unfold pyStrip pyStripL
  rw [dropWhile_eq_self_of_all h,
    dropWhile_eq_self_of_all (fun c hc => h c (by simpa using hc))]
  simp

theorem fields_eq_cons_of {c : Char} {t f : List Char} {fs : List (List Char)}
    (hc : c ≠ '-') (h : fields t = f :: fs) :
    fields (c :: t) = (c :: f) :: fs := by
  simp [fields, hc, h]

theorem fields_dashfree {l : List Char} (h : ∀ c ∈ l, c ≠ '-') :
    fields l = [l] := by
  induction l with
  | nil => rfl
  | cons c t ih =>
    exact fields_eq_cons_of (h c (by simp)) (ih (fun x hx => h x (by simp [hx])))

theorem fields_append {a rest : List Char} (h : ∀ c ∈ a, c ≠ '-') :
    fields (a ++ '-' :: rest) = a :: fields rest := by
  induction a with
  | nil => simp [fields]
  | cons c t ih =>
    have ht : fields (t ++ '-' :: rest) = t :: fields rest :=
      ih (fun x hx => h x (by simp [hx]))
    simpa using fields_eq_cons_of (h c (by simp)) ht

theorem pyInt_digits {l : List Char} (h1 : l ≠ []) (h2 : l.all isDigitChar = true) :
    pyInt? l = some ((charsVal l : Nat) : Int) := by
  cases l with
  | nil => simp at h1
  | cons c rest =>
    have hc : isDigitChar c = true := by
      simp [List.all_cons] at h2; exact h2.1
    simp [pyInt?, digit_ne_dash hc, digit_ne_plus hc, decDigits?, h2]

theorem charsVal_cons_zero (l : List Char) : charsVal ('0' :: l) = charsVal l := rfl

theorem pad4_spec (n : Nat) (h1 : 1 ≤ n) (h2 : n ≤ 9999) :
    (pad4 n).data.all isDigitChar = true ∧
      charsVal (pad4 n).data = n ∧ (pad4 n).data.length = 4 := by
  obtain ⟨ha, hv, hl1, hl4⟩ := natToDec_spec n h2
  by_cases c1 : n < 10
  · have hdata : (pad4 n).data = '0' :: '0' :: '0' :: (natToDec n).data := by
      rw [pad4, if_pos c1]; simp [String.data_append]
    rw [hdata]
    refine ⟨by simp [ha]; decide, ?_, ?_⟩
    · rw [charsVal_cons_zero, charsVal_cons_zero, charsVal_cons_zero, hv]
    · rw [natToDec_data1 n c1]; rfl
  · by_cases c2 : n ≤ 99
    · have hdata : (pad4 n).data = '0' :: '0' :: (natToDec n).data := by
        rw [pad4, if_neg c1, if_pos (by omega)]; simp [String.data_append]
      rw [hdata]
      refine ⟨by simp [ha]; decide, ?_, ?_⟩
      · rw [charsVal_cons_zero, charsVal_cons_zero, hv]
      · rw [natToDec_data2 n (by omega) c2]; rfl
    · by_cases c3 : n ≤ 999
      · have hdata : (pad4 n).data = '0' :: (natToDec n).data := by
          rw [pad4, if_neg c1, if_neg (by omega), if_pos (by omega)]
          simp [String.data_append]
        rw [hdata]
        refine ⟨by simp [ha]; decide, ?_, ?_⟩
        · rw [charsVal_cons_zero, hv]
        · rw [natToDec_data3 n (by omega) c3]; rfl
      · have hdata : (pad4 n).data = (natToDec n).data := by
          rw [pad4, if_neg c1, if_neg (by omega), if_neg (by omega)]
        rw [hdata]
        refine ⟨ha, hv, ?_⟩
        rw [natToDec_data4 n (by omega) h2]; rfl

theorem strptimeFlex_mk (y m d : Nat) (hy1 : 1 ≤ y) (hy2 : y ≤ 9999)
    (hm1 : 1 ≤ m) (hm2 : m ≤ 12) (hd1 : 1 ≤ d) (hd2 : d ≤ daysInMonth y m) :
    strptimeFlex? (natToDec y ++ "-" ++ pad2 m ++ "-" ++ pad2 d) = some ⟨y, m, d⟩ := by
  obtain ⟨ya, yv, yl1, yl4⟩ := natToDec_spec y hy2
  obtain ⟨ma, mv, ml⟩ := pad2_spec m (by omega)
  obtain ⟨da, dv, dl⟩ := pad2_spec d (by unfold daysInMonth at hd2; split_ifs at hd2 <;> omega)
  have hdata : (natToDec y ++ "-" ++ pad2 m ++ "-" ++ pad2 d).data
      = (natToDec y).data ++ '-' :: ((pad2 m).data ++ '-' :: (pad2 d).data) := by
    simp [String.data_append]
  have ydash : ∀ c ∈ (natToDec y).data, c ≠ '-' := by
    intro c hc
    exact digit_ne_dash (by rw [List.all_eq_true] at ya; exact ya c hc)
  have mdash : ∀ c ∈ (pad2 m).data, c ≠ '-' := by
    intro c hc
    exact digit_ne_dash (by rw [List.all_eq_true] at ma; exact ma c hc)
  have ddash : ∀ c ∈ (pad2 d).data, c ≠ '-' := by
    intro c hc
    exact digit_ne_dash (by rw [List.all_eq_true] at da; exact da c hc)
  have yne : (natToDec y).data ≠ [] := by
    intro h0; rw [h0] at yl1; simp at yl1
  have mne : (pad2 m).data ≠ [] := by
    intro h0; rw [h0] at ml; simp at ml
  have dne : (pad2 d).data ≠ [] := by
    intro h0; rw [h0] at dl; simp at dl
  simp only [strptimeFlex?, hdata, fields_append ydash, fields_append mdash,
    fields_dashfree ddash]
  rw [if_pos ⟨yne, yl4, ya, mne, by omega, ma, dne, by omega, da⟩]
  simp only [yv, mv, dv]
  rw [if_pos ⟨hy1, hm1, hm2, hd1, hd2⟩]

theorem intToDec_natCast (n : Nat) : intToDec (n : Int) = natToDec n := by
  unfold intToDec
  rw [if_neg (by omega)]
  simp

theorem natToDec_nonempty (n : Nat) (h : n ≤ 9999) : (natToDec n).data ≠ [] := by
  obtain ⟨-, -, hl1, -⟩ := natToDec_spec n h
  intro h0; rw [h0] at hl1; simp at hl1

theorem pyStrip_natToDec (n : Nat) (h : n ≤ 9999) :
    pyStrip (natToDec n) = natToDec n := by
  obtain ⟨ha, -, -, -⟩ := natToDec_spec n h
  refine pyStrip_eq_self (fun c hc => ?_)
  exact digit_not_space (by rw [List.all_eq_true] at ha; exact ha c hc)

theorem pyInt_natToDec (n : Nat) (h : n ≤ 9999) :
    pyInt? (natToDec n).data = some (n : Int) := by
  obtain ⟨ha, hv, -, -⟩ := natToDec_spec n h
  rw [pyInt_digits (natToDec_nonempty n h) ha, hv]

/-! ## Claim C2: year-only normalization -/

/-- Claim C2, counterexample: the claim states that for every 4-character
numeric year string `YYYY`, start-mode normalization returns the string
`YYYY-01-01`.  For the input `"0005"` the code formats the parsed
integer without padding and returns `"5-01-01"`, not `"0005-01-01"`. -/
theorem c2_counterexample :
    Fetcher.parse_date_input "0005" true ⟨2026, 10, 12⟩ = .ok "5-01-01" ∧
      Fetcher.parse_date_input "0005" true ⟨2026, 10, 12⟩ ≠ .ok "0005-01-01" := by
  constructor
  · rfl
  · intro h
    rw [show Fetcher.parse_date_input "0005" true ⟨2026, 10, 12⟩
        = Except.ok "5-01-01" from rfl] at h
    exact absurd (Except.ok.inj h) (by decide)

/-- Claim C2, amended: for every 4-character numeric year string without
a leading zero (year 1000..9999, written `natToDec y`), start-mode
normalization returns `YYYY-01-01`, and end-mode returns `YYYY-12-31`
unless that date is after yesterday (relative to the call time `now`),
in which case it returns yesterday's date.  (With a leading zero the
result uses the unpadded integer value, per the counterexample.) -/
theorem c2_amended_year_normalization (y : Nat) (hy1 : 1000 ≤ y) (hy2 : y ≤ 9999)
    (now : Date) :
    Fetcher.parse_date_input (natToDec y) true now = .ok (natToDec y ++ "-01-01") ∧
    Fetcher.parse_date_input (natToDec y) false now =
      (if dateLt (predDate now) ⟨y, 12, 31⟩ = true then .ok (fmtDate (predDate now))
       else .ok (natToDec y ++ "-12-31")) := by
  have hlen : (natToDec y).length = 4 := by
    show (natToDec y).data.length = 4
    rw [natToDec_data4 y hy1 hy2]; rfl
  have et : ((y : Int)).toNat = y := by simp
  constructor
  · simp only [Fetcher.parse_date_input, pyStrip_natToDec y (by omega), hlen,
      pyInt_natToDec y (by omega), if_true]
    simp [intToDec_natCast]
  · simp only [Fetcher.parse_date_input, pyStrip_natToDec y (by omega), hlen,
      pyInt_natToDec y (by omega), if_true]
    rw [if_neg (by simp), if_pos ⟨by omega, by omega⟩, et, intToDec_natCast]

/-- Claim C2, witness: the amended theorem applied to year 2020 with
call time 2026-10-12. -/
theorem c2_witness :
    1000 ≤ 2020 ∧ 2020 ≤ 9999 ∧
      (Fetcher.parse_date_input (natToDec 2020) true ⟨2026, 10, 12⟩
          = .ok (natToDec 2020 ++ "-01-01") ∧
        Fetcher.parse_date_input (natToDec 2020) false ⟨2026, 10, 12⟩
          = (if dateLt (predDate ⟨2026, 10, 12⟩) ⟨2020, 12, 31⟩ = true then
              .ok (fmtDate (predDate ⟨2026, 10, 12⟩))
            else .ok (natToDec 2020 ++ "-12-31"))) :=
  ⟨by decide, by decide,
    c2_amended_year_normalization 2020 (by decide) (by decide) ⟨2026, 10, 12⟩⟩

/-! ## Claim C3: year-month end normalization -/

theorem daysInMonth_12 (y : Nat) : daysInMonth y 12 = 31 := by
  simp [daysInMonth]

theorem daysInMonth_pos (y m : Nat) : 1 ≤ daysInMonth y m := by
  unfold daysInMonth; split_ifs <;> omega

theorem daysInMonth_le31 (y m : Nat) : daysInMonth y m ≤ 31 := by
  unfold daysInMonth; split_ifs <;> omega

theorem predDate_jan1 (Y : Nat) : predDate ⟨Y, 1, 1⟩ = ⟨Y - 1, 12, 31⟩ := by
  simp [predDate]

theorem predDate_month_first (Y M : Nat) (h : 1 ≤ M) :
    predDate ⟨Y, M + 1, 1⟩ = ⟨Y, M, daysInMonth Y M⟩ := by
  unfold predDate
  simp [show ¬((1 : Nat) > 1) from by omega, show M + 1 > 1 from by omega]

/-- Claim C3, counterexample: the claim states that for every valid
7-character `YYYY-MM` input (month 1..12), end-mode normalization
returns the last day of that month.  For `"9999-12"` the code builds
`datetime(10000, 1, 1)`, which raises, and normalization fails with the
invalid-format error instead of returning `"9999-12-31"`; and for
`"0005-02"` the code formats the computed end date as `"5-02-28"`,
whose `strptime` re-parse fails (`%Y` needs exactly four digits), so
normalization again fails instead of returning `"0005-02-28"`. -/
theorem c3_counterexample :
    (Fetcher.parse_date_input "9999-12" false ⟨2026, 10, 12⟩
        = .error "Invalid year-month format. Please use YYYY-MM." ∧
      Fetcher.parse_date_input "9999-12" false ⟨2026, 10, 12⟩ ≠ .ok "9999-12-31") ∧
    (Fetcher.parse_date_input "0005-02" false ⟨2026, 10, 12⟩
        = .error "Invalid year-month format. Please use YYYY-MM." ∧
      Fetcher.parse_date_input "0005-02" false ⟨2026, 10, 12⟩ ≠ .ok "0005-02-28") := by
  refine ⟨⟨rfl, fun h => ?_⟩, rfl, fun h => ?_⟩
  · rw [show Fetcher.parse_date_input "9999-12" false ⟨2026, 10, 12⟩
        = Except.error "Invalid year-month format. Please use YYYY-MM." from rfl] at h
    exact Except.noConfusion h
  · rw [show Fetcher.parse_date_input "0005-02" false ⟨2026, 10, 12⟩
        = Except.error "Invalid year-month format. Please use YYYY-MM." from rfl] at h
    exact Except.noConfusion h

/-- Claim C3, amended: for every valid `YYYY-MM` input with year
1000..9999 and month 1..12 — except December 9999, where the
first-day-of-next-month computation overflows and the code errors out —
end-mode normalization returns the date of the last day of that month in
that year, computed as first-day-of-next-month minus one day (so
February of a leap year gives day 29 and of a non-leap year day 28),
then replaced by yesterday's date if the computed date is after
yesterday.  For years 0..999 the code errors out instead, per the
counterexample: the computed end date is formatted with an unpadded
year, and the `strptime` re-parse (`%Y`, exactly four digits) raises. -/
theorem c3_amended_month_normalization (y m : Nat) (now : Date)
    (hy1 : 1000 ≤ y) (hy2 : y ≤ 9999) (hm1 : 1 ≤ m) (hm2 : m ≤ 12)
    (h12 : m = 12 → y ≤ 9998) :
    Fetcher.parse_date_input (pad4 y ++ "-" ++ pad2 m) false now =
      (if dateLt (predDate now) ⟨y, m, daysInMonth y m⟩ = true then
        .ok (fmtDate (predDate now))
      else .ok (natToDec y ++ "-" ++ pad2 m ++ "-" ++ pad2 (daysInMonth y m))) ∧
    (predDate (if m = 12 then ⟨y + 1, 1, 1⟩ else ⟨y, m + 1, 1⟩)).day = daysInMonth y m := by
  constructor
  · obtain ⟨ya, yv, yl⟩ := pad4_spec y (by omega) hy2
    obtain ⟨ma, mv, ml⟩ := pad2_spec m (by omega)
    have hdata : (pad4 y ++ "-" ++ pad2 m).data
        = (pad4 y).data ++ '-' :: (pad2 m).data := by
      simp [String.data_append]
    have hnos : ∀ c ∈ (pad4 y ++ "-" ++ pad2 m).data, isSpaceChar c = false := by
      rw [hdata]; intro c hc
      rcases List.mem_append.mp hc with h | h
      · exact digit_not_space (by rw [List.all_eq_true] at ya; exact ya c h)
      · rcases List.mem_cons.mp h with rfl | h
        · decide
        · exact digit_not_space (by rw [List.all_eq_true] at ma; exact ma c h)
    have hstrip := pyStrip_eq_self hnos
    have hlen : (pad4 y ++ "-" ++ pad2 m).length = 7 := by
      show (pad4 y ++ "-" ++ pad2 m).data.length = 7
      rw [hdata]; simp [yl, ml]
    have hget : (pad4 y ++ "-" ++ pad2 m).data.get? 4 = some '-' := by
      rw [hdata, List.get?_append_right (by omega), yl]
      rfl
    have hyne : (pad4 y).data ≠ [] := by intro h0; rw [h0] at yl; simp at yl
    have hmne : (pad2 m).data ≠ [] := by intro h0; rw [h0] at ml; simp at ml
    have hfields : fields (pad4 y ++ "-" ++ pad2 m).data
        = [(pad4 y).data, (pad2 m).data] := by
      rw [hdata, fields_append (fun c hc =>
        digit_ne_dash (by rw [List.all_eq_true] at ya; exact ya c hc)),
        fields_dashfree (fun c hc =>
        digit_ne_dash (by rw [List.all_eq_true] at ma; exact ma c hc))]
    have hyint : pyInt? (pad4 y).data = some (y : Int) := by
      rw [pyInt_digits hyne ya, yv]
    have hmint : pyInt? (pad2 m).data = some (m : Int) := by
      rw [pyInt_digits hmne ma, mv]
    simp only [Fetcher.parse_date_input, hstrip, hlen, hget, hfields, hyint, hmint]
    rw [if_neg (by omega)]
    rw [if_pos ⟨trivial, trivial⟩]
    rw [if_neg (by omega)]
    rw [if_neg (by simp)]
    by_cases hm12 : m = 12
    · subst hm12
      rw [if_pos (by norm_num)]
      rw [if_pos ⟨by omega, by omega⟩]
      rw [if_neg (by omega)]
      rw [if_pos (by omega : (1000 : Int) ≤ (y : Int))]
      have e2 : (((y : Int) + 1)).toNat = y + 1 := by omega
      have e3 : ((y : Int)).toNat = y := by simp
      rw [e2, e3, predDate_jan1]
      simp only [Nat.add_sub_cancel, intToDec_natCast, daysInMonth_12]
    · rw [if_neg (by omega)]
      rw [if_pos ⟨by omega, by omega⟩]
      rw [if_pos (by omega : (1000 : Int) ≤ (y : Int))]
      have e3 : ((y : Int)).toNat = y := by simp
      have e4 : ((m : Int)).toNat = m := by simp
      rw [e3, e4, predDate_month_first y m hm1, intToDec_natCast]
  · by_cases hm12 : m = 12
    · subst hm12
      rw [if_pos rfl, predDate_jan1]
      simp [daysInMonth_12]
    · rw [if_neg hm12, predDate_month_first y m hm1]

/-- Claim C3, witness: the amended theorem applied to February 2024
(leap year) with call time 2026-10-12. -/
theorem c3_witness :
    1000 ≤ 2024 ∧ 2024 ≤ 9999 ∧ 1 ≤ 2 ∧ 2 ≤ 12 ∧ (2 = 12 → 2024 ≤ 9998) ∧
      (Fetcher.parse_date_input (pad4 2024 ++ "-" ++ pad2 2) false ⟨2026, 10, 12⟩
          = (if dateLt (predDate ⟨2026, 10, 12⟩) ⟨2024, 2, daysInMonth 2024 2⟩ = true then
              .ok (fmtDate (predDate ⟨2026, 10, 12⟩))
            else .ok (natToDec 2024 ++ "-" ++ pad2 2 ++ "-" ++ pad2 (daysInMonth 2024 2))) ∧
        (predDate (if 2 = 12 then ⟨2024 + 1, 1, 1⟩ else ⟨2024, 2 + 1, 1⟩)).day
          = daysInMonth 2024 2) :=
  ⟨by decide, by decide, by decide, by decide, by decide,
    c3_amended_month_normalization 2024 2 ⟨2026, 10, 12⟩ (by decide) (by decide)
      (by decide) (by decide) (by decide)⟩

/-! ## Claim C4: end-mode results never lie after yesterday -/

theorem dateLt_irrefl (a : Date) : dateLt a a = false := by
  simp [dateLt]

theorem eq_of_data (a b : String) (h : a.data = b.data) : a = b := by
  cases a; cases b; exact congrArg String.mk h

theorem strptime_fmtDate (d : Date) (h : ValidDate d) :
    strptimeFlex? (fmtDate d) = some d := by
  obtain ⟨h1, h2, h3, h4, h5, h6⟩ := h
  exact strptimeFlex_mk d.year d.month d.day h1 h2 h3 h4 h5 h6

theorem intToDec_nonneg (i : Int) (h : 0 ≤ i) : intToDec i = natToDec i.toNat := by
  unfold intToDec
  rw [if_neg (by omega)]
  congr 1
  omega

theorem dash_12_31 (A : String) :
    A ++ "-" ++ pad2 12 ++ "-" ++ pad2 31 = A ++ "-12-31" := by
  apply eq_of_data
  simp [String.data_append, show (pad2 12).data = ['1', '2'] from rfl,
    show (pad2 31).data = ['3', '1'] from rfl,
    show ("-12-31" : String).data = ['-', '1', '2', '-', '3', '1'] from rfl]

theorem strptimeFlex_pad4 (y m d : Nat) (hy1 : 1 ≤ y) (hy2 : y ≤ 9999)
    (hm1 : 1 ≤ m) (hm2 : m ≤ 12) (hd1 : 1 ≤ d) (hd2 : d ≤ daysInMonth y m) :
    strptimeFlex? (pad4 y ++ "-" ++ pad2 m ++ "-" ++ pad2 d) = some ⟨y, m, d⟩ := by
  obtain ⟨ya, yv, yl⟩ := pad4_spec y hy1 hy2
  obtain ⟨ma, mv, ml⟩ := pad2_spec m (by omega)
  obtain ⟨da, dv, dl⟩ := pad2_spec d (by have := daysInMonth_le31 y m; omega)
  have hdata : (pad4 y ++ "-" ++ pad2 m ++ "-" ++ pad2 d).data
      = (pad4 y).data ++ '-' :: ((pad2 m).data ++ '-' :: (pad2 d).data) := by
    simp [String.data_append]
  have ydash : ∀ c ∈ (pad4 y).data, c ≠ '-' := fun c hc =>
    digit_ne_dash (by rw [List.all_eq_true] at ya; exact ya c hc)
  have mdash : ∀ c ∈ (pad2 m).data, c ≠ '-' := fun c hc =>
    digit_ne_dash (by rw [List.all_eq_true] at ma; exact ma c hc)
  have ddash : ∀ c ∈ (pad2 d).data, c ≠ '-' := fun c hc =>
    digit_ne_dash (by rw [List.all_eq_true] at da; exact da c hc)
  have yne : (pad4 y).data ≠ [] := by intro h0; rw [h0] at yl; simp at yl
  have mne : (pad2 m).data ≠ [] := by intro h0; rw [h0] at ml; simp at ml
  have dne : (pad2 d).data ≠ [] := by intro h0; rw [h0] at dl; simp at dl
  simp only [strptimeFlex?, hdata, fields_append ydash, fields_append mdash,
    fields_dashfree ddash]
  rw [if_pos ⟨yne, by omega, ya, mne, by omega, ma, dne, by omega, da⟩]
  simp only [yv, mv, dv]
  rw [if_pos ⟨hy1, hm1, hm2, hd1, hd2⟩]

/-- Claim C4: for every input on which end-mode normalization succeeds,
the returned string denotes (under `strptime`) a date that is not after
yesterday relative to the call time; and in particular a fully specified
`YYYY-MM-DD` end date lying in the future is replaced by yesterday's
date. -/
theorem c4_end_never_future (s : String) (now : Date) (Y M D : Nat) (r : String)
    (hv : ValidDate (predDate now))
    (hY1 : 1 ≤ Y) (hY2 : Y ≤ 9999) (hM1 : 1 ≤ M) (hM2 : M ≤ 12)
    (hD1 : 1 ≤ D) (hD2 : D ≤ daysInMonth Y M)
    (hr : Fetcher.parse_date_input s false now = .ok r) :
    (∃ d : Date, strptimeFlex? r = some d ∧ dateLt (predDate now) d = false) ∧
    (dateLt (predDate now) ⟨Y, M, D⟩ = true →
      Fetcher.parse_date_input (pad4 Y ++ "-" ++ pad2 M ++ "-" ++ pad2 D) false now
        = .ok (fmtDate (predDate now))) := by
  constructor
  · simp only [Fetcher.parse_date_input, Bool.not_false, Bool.true_and,
      Bool.false_eq_true, if_false] at hr
    split at hr
    · split at hr
      · simp at hr
      · rename_i year heq
        split at hr
        · rename_i hyr
          split at hr
          · refine ⟨predDate now, ?_, dateLt_irrefl _⟩
            rw [← Except.ok.inj hr]
            exact strptime_fmtDate _ hv
          · rename_i hlt
            refine ⟨⟨year.toNat, 12, 31⟩, ?_, by simpa using hlt⟩
            rw [← Except.ok.inj hr, intToDec_nonneg year (by omega), ← dash_12_31]
            exact strptimeFlex_mk year.toNat 12 31 (by omega) (by omega) (by omega)
              (by omega) (by omega) (by rw [daysInMonth_12])
        · simp at hr
    · split at hr
      · split at hr
        · split at hr
          · rename_i year month hy hm
            split at hr
            · simp at hr
            · rename_i hmr
              split at hr
              · rename_i hm12
                split at hr
                · rename_i hyr
                  split at hr
                  · simp at hr
                  · rename_i hy0
                    split at hr
                    · rename_i hy1000
                      have hld : (predDate ⟨(year + 1).toNat, 1, 1⟩).day = 31 := by
                        rw [show ((year + 1 : Int)).toNat = year.toNat + 1 from by omega,
                          predDate_jan1]
                      rw [hld] at hr
                      split at hr
                      · refine ⟨predDate now, ?_, dateLt_irrefl _⟩
                        rw [← Except.ok.inj hr]
                        exact strptime_fmtDate _ hv
                      · rename_i hlt
                        refine ⟨⟨year.toNat, 12, 31⟩, ?_, by simpa using hlt⟩
                        rw [← Except.ok.inj hr, intToDec_nonneg year (by omega)]
                        exact strptimeFlex_mk year.toNat 12 31 (by omega) (by omega)
                          (by omega) (by omega) (by omega) (by rw [daysInMonth_12])
                    · simp at hr
                · simp at hr
              · rename_i hm12
                split at hr
                · rename_i hyr
                  split at hr
                  · rename_i hy1000
                    have hm1 : (1 : Int) ≤ month := by omega
                    have hmn : 1 ≤ month.toNat := by omega
                    have hld : predDate ⟨year.toNat, month.toNat + 1, 1⟩
                        = ⟨year.toNat, month.toNat, daysInMonth year.toNat month.toNat⟩ :=
                      predDate_month_first year.toNat month.toNat hmn
                    rw [hld] at hr
                    split at hr
                    · refine ⟨predDate now, ?_, dateLt_irrefl _⟩
                      rw [← Except.ok.inj hr]
                      exact strptime_fmtDate _ hv
                    · rename_i hlt
                      refine ⟨⟨year.toNat, month.toNat, daysInMonth year.toNat month.toNat⟩,
                        ?_, by simpa using hlt⟩
                      rw [← Except.ok.inj hr, intToDec_nonneg year (by omega)]
                      exact strptimeFlex_mk year.toNat month.toNat
                        (daysInMonth year.toNat month.toNat) (by omega) (by omega) hmn
                        (by omega) (daysInMonth_pos _ _) le_rfl
                  · simp at hr
                · simp at hr
          · simp at hr
        · simp at hr
      · split at hr
        · split at hr
          · rename_i d hd
            split at hr
            · refine ⟨predDate now, ?_, dateLt_irrefl _⟩
              rw [← Except.ok.inj hr]
              exact strptime_fmtDate _ hv
            · rename_i hlt
              refine ⟨d, ?_, by simpa using hlt⟩
              rw [← Except.ok.inj hr]
              exact hd
          · simp at hr
        · simp at hr
  · intro hfut
    obtain ⟨ya, yv, yl⟩ := pad4_spec Y hY1 hY2
    obtain ⟨ma, mv, ml⟩ := pad2_spec M (by omega)
    obtain ⟨da, dv, dl⟩ := pad2_spec D (by have := daysInMonth_le31 Y M; omega)
    have hdata : (pad4 Y ++ "-" ++ pad2 M ++ "-" ++ pad2 D).data
        = (pad4 Y).data ++ '-' :: ((pad2 M).data ++ '-' :: (pad2 D).data) := by
      simp [String.data_append]
    have hnos : ∀ c ∈ (pad4 Y ++ "-" ++ pad2 M ++ "-" ++ pad2 D).data,
        isSpaceChar c = false := by
      rw [hdata]; intro c hc
      rcases List.mem_append.mp hc with h | h
      · exact digit_not_space (by rw [List.all_eq_true] at ya; exact ya c h)
      · rcases List.mem_cons.mp h with rfl | h
        · decide
        · rcases List.mem_append.mp h with h | h
          · exact digit_not_space (by rw [List.all_eq_true] at ma; exact ma c h)
          · rcases List.mem_cons.mp h with rfl | h
            · decide
            · exact digit_not_space (by rw [List.all_eq_true] at da; exact da c h)
    have hstrip := pyStrip_eq_self hnos
    have hlen : (pad4 Y ++ "-" ++ pad2 M ++ "-" ++ pad2 D).length = 10 := by
      show (pad4 Y ++ "-" ++ pad2 M ++ "-" ++ pad2 D).data.length = 10
      rw [hdata]; simp [yl, ml, dl]
    have hget4 : (pad4 Y ++ "-" ++ pad2 M ++ "-" ++ pad2 D).data.get? 4 = some '-' := by
      rw [hdata, List.get?_append_right (by omega), yl]
      rfl
    have hget7 : (pad4 Y ++ "-" ++ pad2 M ++ "-" ++ pad2 D).data.get? 7 = some '-' := by
      rw [hdata, List.get?_append_right (by omega), yl]
      show ((pad2 M).data ++ '-' :: (pad2 D).data).get? 2 = some '-'
      rw [List.get?_append_right (by omega), ml]
      rfl
    have hflex := strptimeFlex_pad4 Y M D hY1 hY2 hM1 hM2 hD1 hD2
    simp only [Fetcher.parse_date_input, hstrip, hlen, hget4, hget7, hflex,
      Bool.not_false, Bool.true_and]
    rw [if_neg (by omega), if_neg (by simp), if_pos ⟨trivial, trivial, trivial⟩,
      if_pos hfut]

/-- Claim C4, witness: end-mode normalization of `"2030-01-01"` at call
time 2026-10-12 returns `"2026-10-11"` (yesterday), and the theorem
applies to it with the future date 2030-01-01. -/
theorem c4_witness :
    ValidDate (predDate ⟨2026, 10, 12⟩) ∧ 1 ≤ 2030 ∧ 2030 ≤ 9999 ∧
      1 ≤ 1 ∧ 1 ≤ 12 ∧ 1 ≤ 1 ∧ 1 ≤ daysInMonth 2030 1 ∧
      Fetcher.parse_date_input "2030-01-01" false ⟨2026, 10, 12⟩ = .ok "2026-10-11" ∧
      ((∃ d : Date, strptimeFlex? "2026-10-11" = some d ∧
          dateLt (predDate ⟨2026, 10, 12⟩) d = false) ∧
        (dateLt (predDate ⟨2026, 10, 12⟩) ⟨2030, 1, 1⟩ = true →
          Fetcher.parse_date_input (pad4 2030 ++ "-" ++ pad2 1 ++ "-" ++ pad2 1)
              false ⟨2026, 10, 12⟩
            = .ok (fmtDate (predDate ⟨2026, 10, 12⟩)))) :=
  ⟨by decide, by decide, by decide, by decide, by decide, by decide, by decide, rfl,
    c4_end_never_future "2030-01-01" ⟨2026, 10, 12⟩ 2030 1 1 "2026-10-11" (by decide)
      (by decide) (by decide) (by decide) (by decide) (by decide) (by decide) rfl⟩

/-! ## Claim C9: the duplicate fetcher's date normalizer is identical -/

/-- Claim C9: for every input string, mode flag and call time,
`parse_date_input` in `open_meteo_fetcher.py` returns the same result
(or raises the same error) as `parse_date_input` in `fetcher.py`: the
two transcriptions are definitionally equal. -/
theorem c9_duplicate_fetcher_equivalent :
    ∀ (s : String) (b : Bool) (now : Date),
      OpenMeteoFetcher.parse_date_input s b now = Fetcher.parse_date_input s b now :=
  fun _ _ _ => rfl

/-! ## Claim C5: month-range filtering with wraparound -/

/-- Claim C5: the month-range filter used by both visualizer variants
keeps exactly the rows whose month lies in the inclusive range `[s, e]`
when `s <= e`, and exactly the rows with month `>= s` or `<= e`
(wraparound across the year boundary, e.g. 11-2 keeps months
{11, 12, 1, 2}) when `s > e`. -/
theorem c5_month_range_filter (l : List Row) (sm em : Int) (r : Row) :
    r ∈ monthRangeFilter sm em l ↔
      r ∈ l ∧ (if sm ≤ em then sm ≤ monthOf r ∧ monthOf r ≤ em
               else sm ≤ monthOf r ∨ monthOf r ≤ em) := by
  unfold monthRangeFilter
  by_cases h : sm ≤ em
  · simp [h, List.mem_filter, decide_eq_true_eq]
  · simp [h, List.mem_filter, decide_eq_true_eq]

/-! ## Claims C7 and C10: CLI argument validation -/

/-- Claim C7, counterexample: the claim states the entry point exits
with code 1 whenever both a single year and a year range are supplied.
Supplying `--year 0` together with `--year-range 2000 2010` passes
validation (Python truthiness: `0` is falsy), so no exit occurs. -/
theorem c7_counterexample :
    validateArgs (some 0) (some (2000, 2010)) none none = none := rfl

/-- Claim C7, amended: the entry point exits with code 1 exactly when a
nonzero single year is supplied together with a year range, or a nonzero
single month together with a month range, or a month-range bound lies
outside 1..12, or a year range has start greater than end.  (A supplied
`--year 0` or `--month 0` is falsy and does not trigger the conflict
check, per the counterexample.) -/
theorem c7_amended_validation (y : Option Int) (yr : Option (Int × Int))
    (m : Option Int) (mr : Option (Int × Int)) :
    validateArgs y yr m mr = some 1 ↔
      (∃ a p, y = some a ∧ a ≠ 0 ∧ yr = some p) ∨
      (∃ a p, m = some a ∧ a ≠ 0 ∧ mr = some p) ∨
      (∃ se, mr = some se ∧ ¬(1 ≤ se.1 ∧ se.1 ≤ 12 ∧ 1 ≤ se.2 ∧ se.2 ≤ 12)) ∨
      (∃ se, yr = some se ∧ se.2 < se.1) := by
  rcases y with _ | a <;> rcases yr with _ | ⟨p1, p2⟩ <;>
    rcases m with _ | b <;> rcases mr with _ | ⟨q1, q2⟩ <;>
    simp [validateArgs, truthyInt, truthyPair, mrViolation, yrViolation,
      bne_iff_ne] <;>
    (try split_ifs with h1 h2 h3) <;> (try simp_all) <;> omega

/-- Claim C10: `--year 0` together with a well-formed `--year-range`
does not trigger the conflict validation and does not exit with code 1
(likewise a falsy month value with an in-range month range), while every
nonzero `--year` combined with `--year-range` exits with code 1. -/
theorem c10_falsy_year_zero (a b k : Int) (p : Int × Int) (m : Option Int)
    (mr : Option (Int × Int)) (s e : Int) (hab : a ≤ b) (hk : k ≠ 0)
    (hs1 : 1 ≤ s) (hs2 : s ≤ 12) (he1 : 1 ≤ e) (he2 : e ≤ 12) :
    validateArgs (some 0) (some (a, b)) none none = none ∧
    validateArgs (some k) (some p) m mr = some 1 ∧
    validateArgs none none (some 0) (some (s, e)) = none := by
  refine ⟨?_, ?_, ?_⟩
  · simp [validateArgs, truthyInt, truthyPair, mrViolation, yrViolation,
      show ¬(b < a) from by omega]
  · simp [validateArgs, truthyInt, truthyPair, hk]
  · simp [validateArgs, truthyInt, truthyPair, mrViolation, yrViolation]
    omega

/-- Claim C10, witness: concrete instantiation with `--year 0`,
`--year-range 2000 2010`, a nonzero year 2005, and month range 6-8. -/
theorem c10_witness :
    (2000 : Int) ≤ 2010 ∧ (2005 : Int) ≠ 0 ∧ (1 : Int) ≤ 6 ∧ (6 : Int) ≤ 12 ∧
      (1 : Int) ≤ 8 ∧ (8 : Int) ≤ 12 ∧
      (validateArgs (some 0) (some (2000, 2010)) none none = none ∧
        validateArgs (some 2005) (some (1999, 2001)) none none = some 1 ∧
        validateArgs none none (some 0) (some (6, 8)) = none) :=
  ⟨by decide, by decide, by decide, by decide, by decide, by decide,
    c10_falsy_year_zero 2000 2010 2005 (1999, 2001) none none 6 8
      (by decide) (by decide) (by decide) (by decide) (by decide) (by decide)⟩

/-! ## Claims C6, C8, C1: the filter/aggregate engines -/

theorem filter_filter_comm (p q : Row → Bool) (l : List Row) :
    (l.filter p).filter q = l.filter (fun a => p a && q a) := by
  rw [List.filter_filter]
  exact List.filter_congr (fun a _ => Bool.and_comm _ _)

theorem exclCurrent_eq_self (l : List Row) (cy cm : Int)
    (h : ∀ r ∈ l, yearOf r < cy) :
    Visualizer.exclCurrent l cy cm = l := by
  refine List.filter_eq_self.mpr (fun r hr => ?_)
  have := h r hr
  simp [show (yearOf r == cy) = false from by simp; omega]

theorem yearStepList_of_some {rows l : List Row} {y : Option Int}
    {yr : Option (Int × Int)} {cy : Int}
    (h : Visualizer.yearStep rows y yr cy = some l) :
    Visualizer.yearStepList rows y yr cy = l := by
  rcases y with _ | a
  · rcases yr with _ | ⟨sy, ey⟩
    · simpa [Visualizer.yearStep, Visualizer.yearStepList] using h
    · simp only [Visualizer.yearStep, Visualizer.yearStepList] at h ⊢
      split at h
      · simp at h
      · simpa using h
  · simpa [Visualizer.yearStep, Visualizer.yearStepList] using h

theorem yearStepList_of_none {rows : List Row} {y : Option Int}
    {yr : Option (Int × Int)} {cy : Int}
    (h : Visualizer.yearStep rows y yr cy = none) :
    Visualizer.yearStepList rows y yr cy = [] := by
  rcases y with _ | a
  · rcases yr with _ | ⟨sy, ey⟩
    · simp [Visualizer.yearStep] at h
    · simp only [Visualizer.yearStep, Visualizer.yearStepList] at h ⊢
      split at h
      · rename_i habort
        refine List.filter_eq_nil_iff.mpr (fun r hr => ?_)
        simp only [Bool.and_eq_true, decide_eq_true_eq, not_and]
        intro h1
        split_ifs with hc <;> omega
      · simp at h
  · simp [Visualizer.yearStep] at h

theorem monthStep_nil (m : Option Int) (mr : Option (Int × Int)) (cy cm : Int) :
    Visualizer.monthStep [] m mr cy cm = [] := by
  rcases m with _ | a
  · rcases mr with _ | ⟨sm, em⟩
    · rfl
    · simp only [Visualizer.monthStep, monthRangeFilter, Visualizer.exclCurrent]
      split <;> rfl
  · rfl

/-- Claim C6, counterexample: the claim states that both visualizer
variants exclude current-year rows when no explicit filter is supplied.
With call time in 2026, `visualization_openmeteo.py` run without filters
on a payload holding only a 2026 row still aggregates that row: the
produced yearly aggregates are exactly for year 2026, and the engine
does not report the no-data outcome. -/
theorem c6_counterexample :
    (aggsOf (VisualizationOpenmeteo.visualize_weather_data
        [⟨⟨2026, 1, 5⟩, some 10, some 12, some 11⟩] none none none none)).map
        YearAgg.year = [2026] ∧
      VisualizationOpenmeteo.visualize_weather_data
        [⟨⟨2026, 1, 5⟩, some 10, some 12, some 11⟩] none none none none
        ≠ .noUsable := by
  constructor
  · rfl
  · intro h
    simp only [VisualizationOpenmeteo.visualize_weather_data,
      VisualizationOpenmeteo.yearStep, VisualizationOpenmeteo.monthStep,
      Visualizer.cleanStep] at h
    exact absurd h (by decide)

/-- Claim C6, amended: in `visualizer.py` (but not in
`visualization_openmeteo.py`, per the counterexample), when no explicit
year or month filter is supplied the engine aggregates exactly the rows
of years strictly before the current year that have a mean temperature,
so no partial-period average is produced; the unfiltered variant of
`visualization_openmeteo.py` applies no such exclusion. -/
theorem c6_amended_current_year_excluded (rows : List Row) (cur : Date) :
    Visualizer.visualize_weather_data rows none none none none cur =
      (let clean := rows.filter (fun r =>
         decide (yearOf r < (cur.year : Int)) && r.temp_mean.isSome)
       if clean.isEmpty then .noUsable else .stats (yearlyStats clean)) := by
  have hx := exclCurrent_eq_self
    (rows.filter (fun r => decide (yearOf r < (cur.year : Int))))
    (cur.year : Int) (cur.month : Int)
    (fun r hr => by
      have := List.mem_filter.mp hr
      simpa using this.2)
  simp only [Visualizer.visualize_weather_data, Visualizer.yearStep,
    Visualizer.monthStep, Visualizer.cleanStep, hx, filter_filter_comm]

/-- Claim C8, counterexample: the claim states that every filter
combination leaving zero rows yields the "no usable data" outcome.  A
year range starting at/after the current year leaves zero rows but takes
the early `"❌ No data available"` return instead of reporting
`"⚠️ No usable temperature data found."`. -/
theorem c8_counterexample :
    Visualizer.cleanRows [⟨⟨2020, 5, 1⟩, some 1, some 3, some 2⟩] none
        (some (2030, 2031)) none none ⟨2026, 10, 12⟩ = [] ∧
      Visualizer.visualize_weather_data [⟨⟨2020, 5, 1⟩, some 1, some 3, some 2⟩] none
        (some (2030, 2031)) none none ⟨2026, 10, 12⟩ = .noData := by decide

/-- Claim C8, amended: a filter combination leaves zero rows (after the
filters and the missing-mean drop) exactly when the engine reports a
no-data outcome — in `visualizer.py` either the early "no data
available" return (year-range start not before the current year) or the
"no usable data" report, and in `visualization_openmeteo.py` always the
"no usable data" report — and in that case no yearly aggregate, chart,
or exception is produced. -/
theorem c8_amended_no_usable (rows : List Row) (y : Option Int)
    (yr : Option (Int × Int)) (m : Option Int) (mr : Option (Int × Int))
    (cur : Date) :
    (Visualizer.cleanRows rows y yr m mr cur = [] ↔
      Visualizer.visualize_weather_data rows y yr m mr cur = .noData ∨
      Visualizer.visualize_weather_data rows y yr m mr cur = .noUsable) ∧
    (VisualizationOpenmeteo.cleanRows rows y yr m mr = [] ↔
      VisualizationOpenmeteo.visualize_weather_data rows y yr m mr = .noUsable) := by
  constructor
  · cases hys : Visualizer.yearStep rows y yr (cur.year : Int) with
    | none =>
      simp only [Visualizer.visualize_weather_data, hys]
      simp [Visualizer.cleanRows, yearStepList_of_none hys, monthStep_nil,
        Visualizer.cleanStep]
    | some l1 =>
      simp only [Visualizer.visualize_weather_data, hys, Visualizer.cleanRows,
        yearStepList_of_some hys]
      split
      · rename_i hemp
        simp only [List.isEmpty_iff] at hemp
        simp [hemp]
      · rename_i hemp
        simp only [List.isEmpty_iff] at hemp
        simp [hemp]
  · simp only [VisualizationOpenmeteo.visualize_weather_data,
      VisualizationOpenmeteo.cleanRows]
    split
    · rename_i hemp
      simp only [List.isEmpty_iff] at hemp
      simp [hemp]
    · rename_i hemp
      simp only [List.isEmpty_iff] at hemp
      simp [hemp]

theorem filterMap_eq_map_getD {l : List Row} (f : Row → Option ℚ)
    (h : ∀ r ∈ l, (f r).isSome = true) :
    l.filterMap f = l.map (fun r => (f r).getD 0) := by
  induction l with
  | nil => rfl
  | cons a t ih =>
    have ha := h a (by simp)
    obtain ⟨v, hv⟩ := Option.isSome_iff_exists.mp ha
    rw [List.filterMap_cons, hv, List.map_cons]
    simp [hv, ih (fun r hr => h r (by simp [hr]))]

theorem yearlyStats_eq_manual (l : List Row)
    (h : ∀ r ∈ l, r.temp_min.isSome = true ∧ r.temp_max.isSome = true ∧
      r.temp_mean.isSome = true) :
    yearlyStats l = manualYearlyStats l := by
  unfold yearlyStats manualYearlyStats
  refine List.map_congr_left (fun y hy => ?_)
  have hsub : ∀ r ∈ rowsOfYear y l, r ∈ l := fun r hr => (List.mem_filter.mp hr).1
  show YearAgg.mk _ _ _ _ = YearAgg.mk _ _ _ _
  rw [filterMap_eq_map_getD (fun r => r.temp_mean) (fun r hr => (h r (hsub r hr)).2.2),
    filterMap_eq_map_getD (fun r => r.temp_min) (fun r hr => (h r (hsub r hr)).1),
    filterMap_eq_map_getD (fun r => r.temp_max) (fun r hr => (h r (hsub r hr)).2.1)]

/-- Claim C1: for every payload whose days all fall in years strictly
before the current year (and whose min/max columns are present), running
`visualizer.py`'s engine with an inclusive year-range filter `[Y1, Y2]`
aggregates exactly the rows with year in `[Y1, Y2]` and a present mean
temperature, and returns for each remaining year exactly the arithmetic
mean of `temp_mean`, `temp_min` and `temp_max` over that year's
remaining rows (the manual averaging of the input). -/
theorem c1_year_range_aggregation (rows : List Row) (Y1 Y2 : Int) (cur : Date)
    (hall : ∀ r ∈ rows, yearOf r < (cur.year : Int))
    (hpres : ∀ r ∈ rows, r.temp_min.isSome = true ∧ r.temp_max.isSome = true) :
    aggsOf (Visualizer.visualize_weather_data rows none (some (Y1, Y2)) none none cur) =
      manualYearlyStats (rows.filter (fun r =>
        decide (Y1 ≤ yearOf r) && decide (yearOf r ≤ Y2) && r.temp_mean.isSome)) := by
  by_cases habort : Y1 ≥ (cur.year : Int)
  · have hkept : rows.filter (fun r =>
        decide (Y1 ≤ yearOf r) && decide (yearOf r ≤ Y2) && r.temp_mean.isSome) = [] := by
      refine List.filter_eq_nil_iff.mpr (fun r hr => ?_)
      have := hall r hr
      simp only [Bool.and_eq_true, decide_eq_true_eq, not_and]
      intro h1
      omega
    rw [hkept]
    simp only [Visualizer.visualize_weather_data, Visualizer.yearStep,
      if_pos habort]
    rfl
  · have hfy : rows.filter (fun r => decide (Y1 ≤ yearOf r) &&
        decide (yearOf r ≤ (if Y2 ≥ (cur.year : Int) then
          min Y2 ((cur.year : Int) - 1) else Y2))) =
        rows.filter (fun r => decide (Y1 ≤ yearOf r) && decide (yearOf r ≤ Y2)) := by
      refine List.filter_congr (fun r hr => ?_)
      have := hall r hr
      have he : (yearOf r ≤ (if Y2 ≥ (cur.year : Int) then
          min Y2 ((cur.year : Int) - 1) else Y2)) ↔ yearOf r ≤ Y2 := by
        split_ifs with hc <;> omega
      rw [decide_eq_decide.mpr he]
    have hx := exclCurrent_eq_self
      (rows.filter (fun r => decide (Y1 ≤ yearOf r) && decide (yearOf r ≤ Y2)))
      (cur.year : Int) (cur.month : Int)
      (fun r hr => hall r (List.mem_filter.mp hr).1)
    simp only [Visualizer.visualize_weather_data, Visualizer.yearStep,
      if_neg habort, Visualizer.monthStep, Visualizer.cleanStep, hfy, hx,
      filter_filter_comm]
    split
    · rename_i hemp
      rw [List.isEmpty_iff] at hemp
      rw [hemp]
      rfl
    · rename_i hemp
      show yearlyStats _ = _
      refine yearlyStats_eq_manual _ (fun r hr => ?_)
      have hm := List.mem_filter.mp hr
      have h1 := hpres r hm.1
      have h2 := hm.2
      simp only [Bool.and_eq_true] at h2
      exact ⟨h1.1, h1.2, h2.2⟩

/-- Claim C1, witness: a synthetic payload with three years of daily
values (2020 twice, 2021, 2022), filtered by the year range
`[2020, 2021]`, at call time 2026-10-12. -/
theorem c1_witness :
    (∀ r ∈ [(⟨⟨2020, 1, 1⟩, some 1, some 3, some 2⟩ : Row),
        ⟨⟨2020, 1, 2⟩, some 3, some 5, some 4⟩,
        ⟨⟨2021, 2, 1⟩, some 5, some 7, some 6⟩,
        ⟨⟨2022, 3, 1⟩, some 7, some 9, some 8⟩],
      yearOf r < ((⟨2026, 10, 12⟩ : Date).year : Int)) ∧
    (∀ r ∈ [(⟨⟨2020, 1, 1⟩, some 1, some 3, some 2⟩ : Row),
        ⟨⟨2020, 1, 2⟩, some 3, some 5, some 4⟩,
        ⟨⟨2021, 2, 1⟩, some 5, some 7, some 6⟩,
        ⟨⟨2022, 3, 1⟩, some 7, some 9, some 8⟩],
      r.temp_min.isSome = true ∧ r.temp_max.isSome = true) ∧
    aggsOf (Visualizer.visualize_weather_data
        [⟨⟨2020, 1, 1⟩, some 1, some 3, some 2⟩,
          ⟨⟨2020, 1, 2⟩, some 3, some 5, some 4⟩,
          ⟨⟨2021, 2, 1⟩, some 5, some 7, some 6⟩,
          ⟨⟨2022, 3, 1⟩, some 7, some 9, some 8⟩]
        none (some (2020, 2021)) none none ⟨2026, 10, 12⟩) =
      manualYearlyStats ([(⟨⟨2020, 1, 1⟩, some 1, some 3, some 2⟩ : Row),
          ⟨⟨2020, 1, 2⟩, some 3, some 5, some 4⟩,
          ⟨⟨2021, 2, 1⟩, some 5, some 7, some 6⟩,
          ⟨⟨2022, 3, 1⟩, some 7, some 9, some 8⟩].filter (fun r =>
        decide (2020 ≤ yearOf r) && decide (yearOf r ≤ 2021) && r.temp_mean.isSome)) :=
  ⟨by decide, by decide,
    c1_year_range_aggregation _ 2020 2021 ⟨2026, 10, 12⟩ (by decide) (by decide)⟩
